import Mathlib

/-!
Verification of the alliance-cosmwasm binding layer (`src/lib.rs`).

The file embeds, in Lean:

* the RFC3339 timestamp wire codec (`serialize_time_stamp`, `deserialize_time_stamp`),
  including a semantic model of the external `chrono` crate: proleptic-Gregorian
  calendar conversion, the RFC3339 formatter used by `DateTime<Utc>`'s `Serialize`
  impl (`%Y-%m-%dT%H:%M:%S%.fZ`, where `%.f` prints 0, 3, 6 or 9 fractional digits),
  and the RFC3339 parser used by its `Deserialize` impl.  Machine integers are
  modelled as `Nat`/`Int` with explicit two's-complement wrapping where the Rust
  code casts (`as i64`, `as u64`); the `i64` overflow inside chrono's
  `timestamp_nanos` is modelled with release-mode wrapping semantics;
* the `AllianceMsg` / `AllianceQuery` data model with the wire encoding produced
  by `cw_serde` (externally tagged JSON, `snake_case` variant tags);
* the `CreateAllianceMsg` builder trait and the `AllianceQuerier` dispatch trait;
* the JSON deserialization of `AllianceAsset` / `AllianceParams`, whose
  `reward_start_time` field is routed through the timestamp codec.
-/

namespace Alliance

/-! ## Calendar model (semantics of chrono's proleptic Gregorian calendar)

chrono represents a `DateTime<Utc>` as a civil date plus time of day and
converts to/from Unix time with Euclidean division.  We model the calendar
with day numbers counted from 0000-01-01 (proleptic Gregorian, year 0 is a
leap year), which keeps every date with a four-digit year in `Nat`.
1970-01-01 is day 719528. -/

/-- Is `y` a leap year in the proleptic Gregorian calendar? -/
def isLeap (y : Nat) : Bool := (y % 4 == 0 && y % 100 != 0) || y % 400 == 0

/-- Number of days of year `y`. -/
def daysInYear (y : Nat) : Nat := if isLeap y then 366 else 365

/-- Number of days of month `m` (1-12) of year `y`. -/
def daysInMonth (y : Nat) (m : Nat) : Nat :=
  if m = 2 then (if isLeap y then 29 else 28)
  else if m = 4 ∨ m = 6 ∨ m = 9 ∨ m = 11 then 30 else 31

/-- Days from `y`-01-01 to `y`-`m`-01. -/
def daysBeforeMonth (y : Nat) (m : Nat) : Nat :=
  (match m with
   | 1 => 0 | 2 => 31 | 3 => 59 | 4 => 90 | 5 => 120 | 6 => 151
   | 7 => 181 | 8 => 212 | 9 => 243 | 10 => 273 | 11 => 304 | _ => 334)
  + (if 3 ≤ m ∧ isLeap y then 1 else 0)

/-- Days from 0000-01-01 to `y`-01-01 (closed form). -/
def daysBeforeYear (y : Nat) : Nat := 365*y + (y+3)/4 - (y+99)/100 + (y+399)/400

/-- Day number (days since 0000-01-01) of the civil date `y`-`m`-`d`. -/
def dayNumber (y m d : Nat) : Nat := daysBeforeYear y + daysBeforeMonth y m + (d - 1)

/-- Locate the year containing absolute day `n`, scanning from year `y`;
returns the year and the day-of-year index. -/
def yearScan : Nat → Nat → Nat → Nat × Nat
  | 0, y, n => (y, n)
  | fuel+1, y, n => if n < daysInYear y then (y, n) else yearScan fuel (y+1) (n - daysInYear y)

/-- Locate the month containing day-of-year `n` of year `y`, scanning from month `m`;
returns the month and the day-of-month index (0-based). -/
def monthScan : Nat → Nat → Nat → Nat → Nat × Nat
  | 0, _, m, n => (m, n)
  | fuel+1, y, m, n =>
      if n < daysInMonth y m then (m, n) else monthScan fuel y (m+1) (n - daysInMonth y m)

/-- Civil date `(y, m, d)` of absolute day `n` (days since 0000-01-01). -/
def civilFromDayN (n : Nat) : Nat × Nat × Nat :=
  let yd := yearScan 10000 0 n
  let md := monthScan 11 yd.1 1 yd.2
  (yd.1, md.1, md.2 + 1)

/-! ## RFC3339 text layer -/

/-- Decimal digit characters. -/
def dchar : Nat → Char
  | 0 => '0' | 1 => '1' | 2 => '2' | 3 => '3' | 4 => '4'
  | 5 => '5' | 6 => '6' | 7 => '7' | 8 => '8' | _ => '9'

/-- Character of the last decimal digit of `n`. -/
def digitChar (n : Nat) : Char := dchar (n % 10)

/-- `n` printed with (at least) 2 digits, as in Rust's `{:02}`. -/
def pad2 (n : Nat) : List Char := [digitChar (n/10), digitChar n]

/-- `n` printed with 3 digits. -/
def pad3 (n : Nat) : List Char := [digitChar (n/100), digitChar (n/10), digitChar n]

/-- `n` printed with 4 digits. -/
def pad4 (n : Nat) : List Char :=
  [digitChar (n/1000), digitChar (n/100), digitChar (n/10), digitChar n]

/-- `n` printed with 6 digits. -/
def pad6 (n : Nat) : List Char :=
  [digitChar (n/100000), digitChar (n/10000), digitChar (n/1000),
   digitChar (n/100), digitChar (n/10), digitChar n]

/-- `n` printed with 9 digits. -/
def pad9 (n : Nat) : List Char :=
  [digitChar (n/100000000), digitChar (n/10000000), digitChar (n/1000000),
   digitChar (n/100000), digitChar (n/10000), digitChar (n/1000),
   digitChar (n/100), digitChar (n/10), digitChar n]

/-- chrono's `%.f`: the fractional-second part, printed with 0, 3, 6 or 9 digits
depending on the trailing zeros of the nanosecond value. -/
def fracChars (ns : Nat) : List Char :=
  if ns = 0 then []
  else if ns % 1000000 = 0 then '.' :: pad3 (ns / 1000000)
  else if ns % 1000 = 0 then '.' :: pad6 (ns / 1000)
  else '.' :: pad9 ns

/-- The RFC3339/UTC rendering `YYYY-MM-DDTHH:MM:SS[.fff]Z` used by chrono's
`Serialize` impl for `DateTime<Utc>`. -/
def fmtChars (y mo d h mi s ns : Nat) : List Char :=
  pad4 y ++ '-' :: (pad2 mo ++ '-' :: (pad2 d ++ 'T' ::
    (pad2 h ++ ':' :: (pad2 mi ++ ':' :: (pad2 s ++ (fracChars ns ++ ['Z']))))))

/-- RFC3339 rendering (UTC) of a nanosecond Unix timestamp `n` (an `i64` value).
Splits `n` exactly as chrono's `Utc.timestamp_nanos` does, with Euclidean
division (Rust's `div_euclid`/`rem_euclid`). -/
def encodeNanos (n : Int) : String :=
  let secs := n / 1000000000
  let subns := (n % 1000000000).toNat
  let days := secs / 86400
  let sod := (secs % 86400).toNat
  let dayN := (days + 719528).toNat
  let c := civilFromDayN dayN
  String.mk (fmtChars c.1 c.2.1 c.2.2 (sod / 3600) (sod % 3600 / 60) (sod % 60) subns)

/-- Read one decimal digit character. -/
def readDigit (c : Char) : Option Nat :=
  if 48 ≤ c.toNat ∧ c.toNat ≤ 57 then some (c.toNat - 48) else none

/-- Read exactly two decimal digits. -/
def read2 : List Char → Option (Nat × List Char)
  | c1 :: c2 :: rest => do
      let d1 ← readDigit c1
      let d2 ← readDigit c2
      pure (10*d1 + d2, rest)
  | _ => none

/-- Read exactly four decimal digits. -/
def read4 : List Char → Option (Nat × List Char)
  | c1 :: c2 :: c3 :: c4 :: rest => do
      let d1 ← readDigit c1
      let d2 ← readDigit c2
      let d3 ← readDigit c3
      let d4 ← readDigit c4
      pure (1000*d1 + 100*d2 + 10*d3 + d4, rest)
  | _ => none

/-- Consume the expected character `c`. -/
def expectChar (c : Char) : List Char → Option (List Char)
  | x :: rest => if x = c then some rest else none
  | [] => none

/-- Consume the date/time separator (chrono accepts `T`, `t` or a space). -/
def readSep : List Char → Option (List Char)
  | x :: rest => if x = 'T' ∨ x = 't' ∨ x = ' ' then some rest else none
  | [] => none

/-- Accumulate fractional-second digits: value of the first nine digits and the
total digit count (further digits are consumed but ignored, as in chrono). -/
def readFracLoop : List Char → Nat → Nat → Nat × Nat × List Char
  | [], acc, count => (acc, count, [])
  | c :: rest, acc, count =>
      match readDigit c with
      | some d => readFracLoop rest (if count < 9 then acc*10 + d else acc) (count+1)
      | none => (acc, count, c :: rest)

/-- Scale an accumulated fraction of `count` digits to nanoseconds. -/
def fracScale (acc count : Nat) : Nat := acc * 10 ^ (9 - min count 9)

/-- Optional fractional seconds: a dot followed by at least one digit. -/
def readFrac : List Char → Option (Nat × List Char)
  | c :: rest =>
      if c = '.' then
        let t := readFracLoop rest 0 0
        if t.2.1 = 0 then none else some (fracScale t.1 t.2.1, t.2.2)
      else some (0, c :: rest)
  | [] => some (0, [])

/-- UTC offset: `Z`/`z` or `±HH:MM` (hours ≤ 23, minutes ≤ 59, as enforced by
chrono's `FixedOffset`); returns the offset in seconds. -/
def readOffset : List Char → Option (Int × List Char)
  | c :: rest =>
      if c = 'Z' ∨ c = 'z' then some (0, rest)
      else if c = '+' ∨ c = '-' then
        match read2 rest with
        | some (oh, rest1) =>
          match expectChar ':' rest1 with
          | some rest2 =>
            match read2 rest2 with
            | some (om, rest3) =>
              if oh ≤ 23 ∧ om ≤ 59 then
                some (if c = '-' then -((oh*3600 + om*60 : Nat) : Int)
                      else ((oh*3600 + om*60 : Nat) : Int), rest3)
              else none
            | none => none
          | none => none
        | none => none
      else none
  | [] => none

/-- Parse the `YYYY-MM-DD` date part. -/
def parseDate (cs : List Char) : Option (Nat × Nat × Nat × List Char) := do
  let (y, cs) ← read4 cs
  let cs ← expectChar '-' cs
  let (mo, cs) ← read2 cs
  let cs ← expectChar '-' cs
  let (d, cs) ← read2 cs
  pure (y, mo, d, cs)

/-- Parse the `HH:MM:SS` time part. -/
def parseTime (cs : List Char) : Option (Nat × Nat × Nat × List Char) := do
  let (h, cs) ← read2 cs
  let cs ← expectChar ':' cs
  let (mi, cs) ← read2 cs
  let cs ← expectChar ':' cs
  let (s, cs) ← read2 cs
  pure (h, mi, s, cs)

/-- Parse an RFC3339 timestamp into nanoseconds since the Unix epoch, validating
all component ranges as chrono's parser does (`from_ymd_opt` day-in-month check;
a leap second `SS = 60` is folded into the following minute, matching the value
chrono's `timestamp_nanos` computes for its leap-second representation). -/
def parseTSAux (cs : List Char) : Option Int := do
  let (y, mo, d, cs) ← parseDate cs
  let cs ← readSep cs
  let (h, mi, s, cs) ← parseTime cs
  let (ns, cs) ← readFrac cs
  let (off, cs) ← readOffset cs
  if cs = [] ∧ 1 ≤ mo ∧ mo ≤ 12 ∧ 1 ≤ d ∧ d ≤ daysInMonth y mo ∧
      h ≤ 23 ∧ mi ≤ 59 ∧ s ≤ 60 then
    pure ((((dayNumber y mo d : Int) - 719528) * 86400 +
      ((h*3600 + mi*60 + s : Nat) : Int)) * 1000000000 + (ns : Int) - off * 1000000000)
  else none

/-- Parse an RFC3339 string (whole-string parse, as `serde` requires). -/
def parseTS (s : String) : Option Int := parseTSAux s.data

/-! ## The timestamp codec of `src/lib.rs` -/

/-- Error of the timestamp decode path: the string does not parse as RFC3339. -/
inductive TimeError where
  | FormatError
deriving DecidableEq

/-- Rust's `u64 → i64` bit cast (`time_stamp.nanos() as i64`); callers pass an
actual `u64`, i.e. a value `< 2^64`. -/
def i64OfU64 (t : Nat) : Int :=
  if t < 9223372036854775808 then (t : Int) else (t : Int) - 18446744073709551616

/-- Rust's `i64 → u64` bit cast (`date.timestamp_nanos() as u64`). -/
def u64OfI64 (n : Int) : Nat := (n % 18446744073709551616).toNat

/-- Two's-complement wrap of an unbounded integer into `i64`: the value chrono's
`timestamp_nanos` returns under release-mode overflow semantics. -/
def wrapI64 (n : Int) : Int :=
  (n + 9223372036854775808) % 18446744073709551616 - 9223372036854775808

/-- `serialize_time_stamp` (src/lib.rs:148-157): casts the `u64` nanosecond
count to `i64`, builds the chrono `DateTime<Utc>` and serializes it as its
RFC3339 rendering. -/
def serialize_time_stamp (t : Nat) : String := encodeNanos (i64OfU64 t)

/-- `deserialize_time_stamp` (src/lib.rs:159-167): parses the RFC3339 string
(any parse failure surfaces as the serde `FormatError`), takes the nanosecond
count (`timestamp_nanos`, wrapping into `i64`) and casts it to `u64` for
`Timestamp::from_nanos`. -/
def deserialize_time_stamp (s : String) : Except TimeError Nat :=
  match parseTS s with
  | none => .error .FormatError
  | some n => .ok (u64OfI64 (wrapI64 n))

/-! ## Data model of `src/lib.rs`

`Addr` is a validated bech32 string in cosmwasm; it wraps a `String` and is
modelled as one.  `Coin` carries a `u128` amount (`Uint128`), serialized on the
wire as a decimal string.  `Binary` is an opaque byte blob serialized as a
base64 string; we model it by that wire string. -/

/-- `cosmwasm_std::Coin`: a denom plus a `u128` amount. -/
structure Coin where
  denom : String
  amount : Nat

/-- `AllianceMsg` (src/lib.rs:7-30): the four state-changing actions. -/
inductive AllianceMsg where
  | Delegate (delegator_address validator_address : String) (amount : Coin)
  | Undelegate (delegator_address validator_address : String) (amount : Coin)
  | Redelegate (delegator_address validator_src_address validator_dst_address : String)
      (amount : Coin)
  | ClaimDelegationRewards (delegator_address validator_address : String) (denom : String)

/-- `Pagination` (src/lib.rs:77-84). -/
structure Pagination where
  key : Option String
  offset : Option Nat
  limit : Option Nat
  count_total : Option Bool
  reverse : Option Bool

/-- `AllianceQuery` (src/lib.rs:33-75): the nine read-only queries. -/
inductive AllianceQuery where
  | Alliance (denom : String)
  | Alliances (pagination : Option Pagination)
  | AlliancesDelegations (pagination : Option Pagination)
  | AlliancesDelegationByValidator (delegator_addr validator_addr : String)
      (pagination : Option Pagination)
  | Delegation (delegator_addr validator_addr : String) (denom : String)
  | DelegationRewards (delegator_addr validator_addr : String) (denom : String)
  | Params
  | Validator (validator_addr : String)
  | Validators (pagination : Option Pagination)

/-- `cosmwasm_std::Decimal256`: a fixed-point decimal with 18 fractional
digits, stored as its integer number of `10^-18` units (≤ 256 bits). -/
structure Decimal256 where
  atomics : Nat

/-- `PaginationResponse` (src/lib.rs:86-90). -/
structure PaginationResponse where
  next_key : Option String
  total : Option Nat

/-- `AllianceParams` (src/lib.rs:92-97); `last_take_rate_claim_time` is a raw
string on purpose. -/
structure AllianceParams where
  reward_delay_time : Nat
  take_rate_claim_interval : Nat
  last_take_rate_claim_time : String

/-- `DecCoin` (src/lib.rs:99-104). -/
structure DecCoin where
  denom : Option String
  amount : Decimal256

/-- `ValidatorResponse` (src/lib.rs:106-112). -/
structure ValidatorResponse where
  validator_addr : String
  total_delegation_shares : List DecCoin
  validator_shares : List DecCoin
  total_staked : List DecCoin

/-- `AllValidatorsResponse` (src/lib.rs:114-118). -/
structure AllValidatorsResponse where
  validators : List ValidatorResponse
  pagination : Option PaginationResponse

/-- `AllianceParamsResponse` (src/lib.rs:120-123). -/
structure AllianceParamsResponse where
  params : AllianceParams

/-- `WeightRange` (src/lib.rs:125-129). -/
structure WeightRange where
  min : Decimal256
  max : Decimal256

/-- `AllianceAsset` (src/lib.rs:131-146).  `reward_start_time` is a cosmwasm
`Timestamp` (a `u64` nanosecond count) deserialized through the timestamp
codec; `last_reward_change_time` stays a raw string. -/
structure AllianceAsset where
  denom : String
  reward_weight : Decimal256
  consensus_weight : Decimal256
  take_rate : Decimal256
  total_tokens : Decimal256
  total_validator_shares : Decimal256
  reward_start_time : Nat
  reward_change_rate : Decimal256
  reward_change_interval : Nat
  last_reward_change_time : String
  reward_weight_range : WeightRange
  is_initialized : Option Bool

/-- `AllianceAllianceResponse` (src/lib.rs:169-172). -/
structure AllianceAllianceResponse where
  alliance : AllianceAsset

/-- `AllianceAlliancesResponse` (src/lib.rs:174-178). -/
structure AllianceAlliancesResponse where
  alliances : List AllianceAsset
  pagination : Option PaginationResponse

/-- `Reward` (src/lib.rs:212-216). -/
structure Reward where
  denom : Option String
  index : Decimal256

/-- `Delegation` (src/lib.rs:202-210). -/
structure Delegation where
  delegator_address : Option String
  validator_address : Option String
  denom : Option String
  shares : Decimal256
  reward_history : Option (List (Option Reward))
  last_reward_claim_height : Option Nat

/-- `DelegationResponse` (src/lib.rs:196-200). -/
structure DelegationResponse where
  delegation : Delegation
  balance : Coin

/-- `AllianceAlliancesDelegationsResponse` (src/lib.rs:180-184). -/
structure AllianceAlliancesDelegationsResponse where
  delegations : Option (List DelegationResponse)
  pagination : Option PaginationResponse

/-- `RewardsResponse` (src/lib.rs:186-189). -/
structure RewardsResponse where
  rewards : List Coin

/-- `SingleDelegationResponse` (src/lib.rs:191-194). -/
structure SingleDelegationResponse where
  delegation : DelegationResponse

/-! ## JSON wire encoding (cw_serde = serde_json, externally tagged enums,
`rename_all = "snake_case"`, `deny_unknown_fields`) -/

/-- JSON values. -/
inductive Json where
  | str (s : String)
  | num (n : Nat)
  | bool (b : Bool)
  | null
  | arr (elems : List Json)
  | obj (fields : List (String × Json))

/-- serde's `rename_all = "snake_case"` rule: lowercase every character and
insert `_` before each uppercase character that is not the first. -/
def snakeAux : Bool → List Char → List Char
  | _, [] => []
  | first, c :: rest =>
      if c.isUpper then
        (if first then [c.toLower] else ['_', c.toLower]) ++ snakeAux false rest
      else c :: snakeAux false rest

/-- `snake_case` form of an identifier. -/
def snakeCase (s : String) : String := String.mk (snakeAux true s.data)

/-- Serialization of `Coin` (`Uint128` amounts are decimal strings on the wire). -/
def serializeCoin (c : Coin) : Json :=
  .obj [("denom", .str c.denom), ("amount", .str (Nat.repr c.amount))]

/-- Serialization of an `Option` field: `None` becomes JSON `null`. -/
def serializeOpt (f : α → Json) : Option α → Json
  | none => .null
  | some a => f a

/-- Serialization of `Pagination`. -/
def serializePagination (p : Pagination) : Json :=
  .obj [("key", serializeOpt Json.str p.key),
        ("offset", serializeOpt Json.num p.offset),
        ("limit", serializeOpt Json.num p.limit),
        ("count_total", serializeOpt Json.bool p.count_total),
        ("reverse", serializeOpt Json.bool p.reverse)]

/-- The serde serialization of `AllianceMsg` derived by `cw_serde`: externally
tagged, variant tag in `snake_case`, struct-variant fields as an object. -/
def serializeAllianceMsg : AllianceMsg → Json
  | .Delegate d v a =>
      .obj [("delegate", .obj [("delegator_address", .str d),
        ("validator_address", .str v), ("amount", serializeCoin a)])]
  | .Undelegate d v a =>
      .obj [("undelegate", .obj [("delegator_address", .str d),
        ("validator_address", .str v), ("amount", serializeCoin a)])]
  | .Redelegate d vs vd a =>
      .obj [("redelegate", .obj [("delegator_address", .str d),
        ("validator_src_address", .str vs), ("validator_dst_address", .str vd),
        ("amount", serializeCoin a)])]
  | .ClaimDelegationRewards d v dn =>
      .obj [("claim_delegation_rewards", .obj [("delegator_address", .str d),
        ("validator_address", .str v), ("denom", .str dn)])]

/-- The serde serialization of `AllianceQuery` derived by `cw_serde`. -/
def serializeAllianceQuery : AllianceQuery → Json
  | .Alliance dn => .obj [("alliance", .obj [("denom", .str dn)])]
  | .Alliances p => .obj [("alliances", .obj [("pagination", serializeOpt serializePagination p)])]
  | .AlliancesDelegations p =>
      .obj [("alliances_delegations",
        .obj [("pagination", serializeOpt serializePagination p)])]
  | .AlliancesDelegationByValidator d v p =>
      .obj [("alliances_delegation_by_validator",
        .obj [("delegator_addr", .str d), ("validator_addr", .str v),
          ("pagination", serializeOpt serializePagination p)])]
  | .Delegation d v dn =>
      .obj [("delegation", .obj [("delegator_addr", .str d),
        ("validator_addr", .str v), ("denom", .str dn)])]
  | .DelegationRewards d v dn =>
      .obj [("delegation_rewards", .obj [("delegator_addr", .str d),
        ("validator_addr", .str v), ("denom", .str dn)])]
  | .Params => .obj [("params", .obj [])]
  | .Validator v => .obj [("validator", .obj [("validator_addr", .str v)])]
  | .Validators p => .obj [("validators", .obj [("pagination", serializeOpt serializePagination p)])]

/-- The Rust name of an `AllianceMsg` variant. -/
def msgVariantName : AllianceMsg → String
  | .Delegate .. => "Delegate"
  | .Undelegate .. => "Undelegate"
  | .Redelegate .. => "Redelegate"
  | .ClaimDelegationRewards .. => "ClaimDelegationRewards"

/-- The Rust name of an `AllianceQuery` variant. -/
def queryVariantName : AllianceQuery → String
  | .Alliance .. => "Alliance"
  | .Alliances .. => "Alliances"
  | .AlliancesDelegations .. => "AlliancesDelegations"
  | .AlliancesDelegationByValidator .. => "AlliancesDelegationByValidator"
  | .Delegation .. => "Delegation"
  | .DelegationRewards .. => "DelegationRewards"
  | .Params => "Params"
  | .Validator .. => "Validator"
  | .Validators .. => "Validators"

/-- The tag of an externally tagged wire payload. -/
def wireTag : Json → Option String
  | .obj [(t, _)] => some t
  | _ => none

/-- The field keys of an externally tagged wire payload. -/
def wirePayloadKeys : Json → List String
  | .obj [(_, .obj fs)] => fs.map Prod.fst
  | _ => []

/-! ## Message Builder (`CreateAllianceMsg`, src/lib.rs:218-254)

The trait has a blanket impl for every `M: From<AllianceMsg>`; we model the
`From` bound as a conversion record and the four provided methods as
functions over it. -/

/-- The `From<AllianceMsg>` bound of `CreateAllianceMsg`. -/
structure FromAllianceMsg (M : Type) where
  fromMsg : AllianceMsg → M

/-- `CreateAllianceMsg::alliance_delegate`. -/
def alliance_delegate {M : Type} (F : FromAllianceMsg M)
    (delegator_address validator_address : String) (amount : Coin) : M :=
  F.fromMsg (.Delegate delegator_address validator_address amount)

/-- `CreateAllianceMsg::alliance_undelegate`. -/
def alliance_undelegate {M : Type} (F : FromAllianceMsg M)
    (delegator_address validator_address : String) (amount : Coin) : M :=
  F.fromMsg (.Undelegate delegator_address validator_address amount)

/-- `CreateAllianceMsg::alliance_redelegate`. -/
def alliance_redelegate {M : Type} (F : FromAllianceMsg M)
    (delegator_address validator_src_address validator_dst_address : String)
    (amount : Coin) : M :=
  F.fromMsg (.Redelegate delegator_address validator_src_address
    validator_dst_address amount)

/-- `CreateAllianceMsg::alliance_claim_deligation_rewards` (sic). -/
def alliance_claim_deligation_rewards {M : Type} (F : FromAllianceMsg M)
    (delegator_address validator_address : String) (denom : String) : M :=
  F.fromMsg (.ClaimDelegationRewards delegator_address validator_address denom)

/-! ## Query Dispatcher (`AllianceQuerier for QuerierWrapper`, src/lib.rs:308-389) -/

/-- `StdError` outcomes of `QuerierWrapper::query`: the host rejects the query,
or the response bytes fail to decode against the expected schema. -/
inductive QueryError where
  | hostRejected (msg : String)
  | decodeFailed

/-- The well-typed payloads the host can answer with (one per response type). -/
inductive RespVal where
  | alliance (r : AllianceAllianceResponse)
  | alliances (r : AllianceAlliancesResponse)
  | alliancesDelegations (r : AllianceAlliancesDelegationsResponse)
  | singleDelegation (r : SingleDelegationResponse)
  | rewards (r : RewardsResponse)
  | params (r : AllianceParamsResponse)
  | validator (r : ValidatorResponse)
  | validators (r : AllValidatorsResponse)

/-- `QuerierWrapper<'a, T>` with `T: CustomQuery + From<AllianceQuery>`:
`intoCustom` models the `From` conversion into the host's custom-query
envelope `T`; `rawQuery` models `self.query(&custom_query.into())`, the
synchronous chain query returning decoded bytes or an error. -/
structure QuerierWrapper (T : Type) where
  intoCustom : AllianceQuery → T
  rawQuery : T → Except QueryError RespVal

/-- Decoding a raw result into `AllianceAllianceResponse`. -/
def decodeAlliance : Except QueryError RespVal → Except QueryError AllianceAllianceResponse
  | .error e => .error e
  | .ok (.alliance r) => .ok r
  | .ok _ => .error .decodeFailed

/-- Decoding a raw result into `AllianceAlliancesResponse`. -/
def decodeAlliances : Except QueryError RespVal → Except QueryError AllianceAlliancesResponse
  | .error e => .error e
  | .ok (.alliances r) => .ok r
  | .ok _ => .error .decodeFailed

/-- Decoding a raw result into `AllianceAlliancesDelegationsResponse`. -/
def decodeDelegations :
    Except QueryError RespVal → Except QueryError AllianceAlliancesDelegationsResponse
  | .error e => .error e
  | .ok (.alliancesDelegations r) => .ok r
  | .ok _ => .error .decodeFailed

/-- Decoding a raw result into `SingleDelegationResponse`. -/
def decodeSingleDelegation :
    Except QueryError RespVal → Except QueryError SingleDelegationResponse
  | .error e => .error e
  | .ok (.singleDelegation r) => .ok r
  | .ok _ => .error .decodeFailed

/-- Decoding a raw result into `RewardsResponse`. -/
def decodeRewards : Except QueryError RespVal → Except QueryError RewardsResponse
  | .error e => .error e
  | .ok (.rewards r) => .ok r
  | .ok _ => .error .decodeFailed

/-- Decoding a raw result into `AllianceParamsResponse`. -/
def decodeParams : Except QueryError RespVal → Except QueryError AllianceParamsResponse
  | .error e => .error e
  | .ok (.params r) => .ok r
  | .ok _ => .error .decodeFailed

/-- Decoding a raw result into `ValidatorResponse`. -/
def decodeValidator : Except QueryError RespVal → Except QueryError ValidatorResponse
  | .error e => .error e
  | .ok (.validator r) => .ok r
  | .ok _ => .error .decodeFailed

/-- Decoding a raw result into `AllValidatorsResponse`. -/
def decodeValidators : Except QueryError RespVal → Except QueryError AllValidatorsResponse
  | .error e => .error e
  | .ok (.validators r) => .ok r
  | .ok _ => .error .decodeFailed

/-- `AllianceQuerier::query_alliance_alliance`. -/
def query_alliance_alliance {T : Type} (q : QuerierWrapper T)
    (denom : String) : Except QueryError AllianceAllianceResponse :=
  decodeAlliance (q.rawQuery (q.intoCustom (.Alliance denom)))

/-- `AllianceQuerier::query_alliance_alliances`. -/
def query_alliance_alliances {T : Type} (q : QuerierWrapper T)
    (pagination : Option Pagination) : Except QueryError AllianceAlliancesResponse :=
  decodeAlliances (q.rawQuery (q.intoCustom (.Alliances pagination)))

/-- `AllianceQuerier::query_alliance_alliances_delegations`. -/
def query_alliance_alliances_delegations {T : Type} (q : QuerierWrapper T)
    (pagination : Option Pagination) :
    Except QueryError AllianceAlliancesDelegationsResponse :=
  decodeDelegations (q.rawQuery (q.intoCustom (.AlliancesDelegations pagination)))

/-- `AllianceQuerier::query_alliance_alliances_delegation_by_validator`. -/
def query_alliance_alliances_delegation_by_validator {T : Type} (q : QuerierWrapper T)
    (delegator_addr validator_addr : String) (pagination : Option Pagination) :
    Except QueryError AllianceAlliancesDelegationsResponse :=
  decodeDelegations (q.rawQuery (q.intoCustom
    (.AlliancesDelegationByValidator delegator_addr validator_addr pagination)))

/-- `AllianceQuerier::query_alliance_delegation`. -/
def query_alliance_delegation {T : Type} (q : QuerierWrapper T)
    (delegator_addr validator_addr : String) (denom : String) :
    Except QueryError SingleDelegationResponse :=
  decodeSingleDelegation (q.rawQuery (q.intoCustom
    (.Delegation delegator_addr validator_addr denom)))

/-- `AllianceQuerier::query_alliance_delegation_rewards`. -/
def query_alliance_delegation_rewards {T : Type} (q : QuerierWrapper T)
    (delegator_addr validator_addr : String) (denom : String) :
    Except QueryError RewardsResponse :=
  decodeRewards (q.rawQuery (q.intoCustom
    (.DelegationRewards delegator_addr validator_addr denom)))

/-- `AllianceQuerier::query_alliance_params`. -/
def query_alliance_params {T : Type} (q : QuerierWrapper T) :
    Except QueryError AllianceParamsResponse :=
  decodeParams (q.rawQuery (q.intoCustom .Params))

/-- `AllianceQuerier::query_alliance_validator`. -/
def query_alliance_validator {T : Type} (q : QuerierWrapper T)
    (validator_addr : String) : Except QueryError ValidatorResponse :=
  decodeValidator (q.rawQuery (q.intoCustom (.Validator validator_addr)))

/-- `AllianceQuerier::query_alliance_validators`. -/
def query_alliance_validators {T : Type} (q : QuerierWrapper T)
    (pagination : Option Pagination) : Except QueryError AllValidatorsResponse :=
  decodeValidators (q.rawQuery (q.intoCustom (.Validators pagination)))

/-! ## JSON deserialization of `AllianceAsset` / `AllianceParams`

serde's derived `Deserialize` with `deny_unknown_fields`: every key must be a
declared field, duplicate keys are rejected, required fields must be present;
a field of type `Option<T>` may be absent (or `null`) and becomes `None`.
`reward_start_time` is routed through `deserialize_time_stamp` by its
`deserialize_with` attribute; `last_reward_change_time` and
`last_take_rate_claim_time` are plain `String` fields. -/

/-- Look up a field of a JSON object. -/
def jLookup (fs : List (String × Json)) (k : String) : Option Json :=
  (fs.find? (fun p => p.1 == k)).map Prod.snd

/-- Deserialize a JSON string. -/
def deString : Json → Option String
  | .str s => some s
  | _ => none

/-- Deserialize a `u64` from a JSON number. -/
def deNat : Json → Option Nat
  | .num n => some n
  | _ => none

/-- Deserialize a JSON bool. -/
def deBool : Json → Option Bool
  | .bool b => some b
  | _ => none

/-- Deserialize an optional field: absent or `null` is `None`. -/
def deOpt (f : Json → Option α) : Option Json → Option (Option α)
  | none => some none
  | some .null => some none
  | some j => (f j).map some

/-- All characters are decimal digits and there is at least one; value. -/
def digitsToNat : List Char → Option Nat
  | [] => none
  | cs => cs.foldlM (fun acc c => (readDigit c).map (fun d => acc * 10 + d)) 0

/-- Split at the first dot. -/
def splitDot : List Char → List Char × Option (List Char)
  | [] => ([], none)
  | c :: rest =>
      if c = '.' then ([], some rest)
      else
        let p := splitDot rest
        (c :: p.1, p.2)

/-- `Decimal256::from_str`: integer digits, optionally a dot and 1-18
fractional digits; the value in `10^-18` units must fit 256 bits. -/
def parseDecimal (s : String) : Option Decimal256 :=
  let p := splitDot s.data
  match p.2 with
  | none => do
      let i ← digitsToNat p.1
      if i * 10^18 < 2^256 then pure ⟨i * 10^18⟩ else none
  | some frac => do
      let i ← digitsToNat p.1
      let f ← digitsToNat frac
      if frac.length ≤ 18 ∧ i * 10^18 + f * 10^(18 - frac.length) < 2^256 then
        pure ⟨i * 10^18 + f * 10^(18 - frac.length)⟩
      else none

/-- Deserialize a `Decimal256` (a JSON string on the wire). -/
def deDecimal (j : Json) : Option Decimal256 := do
  let s ← deString j
  parseDecimal s

/-- Deserialize a `WeightRange`. -/
def deWeightRange : Json → Option WeightRange
  | .obj fs => do
      let keys := fs.map Prod.fst
      if keys.Nodup ∧ keys.all (fun k => k = "min" ∨ k = "max") then
        let mn ← jLookup fs "min"
        let mnv ← deDecimal mn
        let mx ← jLookup fs "max"
        let mxv ← deDecimal mx
        pure ⟨mnv, mxv⟩
      else none
  | _ => none

/-- The declared fields of `AllianceAsset`. -/
def assetFieldNames : List String :=
  ["denom", "reward_weight", "consensus_weight", "take_rate", "total_tokens",
   "total_validator_shares", "reward_start_time", "reward_change_rate",
   "reward_change_interval", "last_reward_change_time", "reward_weight_range",
   "is_initialized"]

/-- Deserialize the field `k` of an object with the value deserializer `f`. -/
def deField (fs : List (String × Json)) (k : String) (f : Json → Option α) : Option α := do
  let j ← jLookup fs k
  f j

/-- Deserialize a `Timestamp` field carrying the `deserialize_with =
"deserialize_time_stamp"` attribute: a JSON string routed through the codec. -/
def deTimeStamp (j : Json) : Option Nat := do
  let s ← deString j
  (deserialize_time_stamp s).toOption

/-- The six `Decimal256` fields of `AllianceAsset`, in declaration order. -/
def deAssetDecimals (fs : List (String × Json)) :
    Option (Decimal256 × Decimal256 × Decimal256 × Decimal256 × Decimal256 × Decimal256) := do
  let rw ← deField fs "reward_weight" deDecimal
  let cw ← deField fs "consensus_weight" deDecimal
  let tr ← deField fs "take_rate" deDecimal
  let tt ← deField fs "total_tokens" deDecimal
  let tvs ← deField fs "total_validator_shares" deDecimal
  let rcr ← deField fs "reward_change_rate" deDecimal
  pure (rw, cw, tr, tt, tvs, rcr)

/-- The remaining non-decimal fields of `AllianceAsset`: `denom`, the
codec-decoded `reward_start_time`, `reward_change_interval`, the raw
`last_reward_change_time` string, `reward_weight_range`, `is_initialized`. -/
def deAssetRest (fs : List (String × Json)) :
    Option (String × Nat × Nat × String × WeightRange × Option Bool) := do
  let denom ← deField fs "denom" deString
  let rst ← deField fs "reward_start_time" deTimeStamp
  let rci ← deField fs "reward_change_interval" deNat
  let lrct ← deField fs "last_reward_change_time" deString
  let wr ← deField fs "reward_weight_range" deWeightRange
  let isInit ← deOpt deBool (jLookup fs "is_initialized")
  pure (denom, rst, rci, lrct, wr, isInit)

/-- serde deserialization of `AllianceAsset` from a JSON value.
`reward_start_time` goes through `deserialize_time_stamp`; the two other
time-like fields are read as raw strings, untransformed. -/
def deserializeAllianceAsset : Json → Option AllianceAsset
  | .obj fs => do
      let keys := fs.map Prod.fst
      if keys.Nodup ∧ keys.all (fun k => assetFieldNames.contains k) then
        let (rw, cw, tr, tt, tvs, rcr) ← deAssetDecimals fs
        let (denom, rst, rci, lrct, wr, isInit) ← deAssetRest fs
        pure ⟨denom, rw, cw, tr, tt, tvs, rst, rcr, rci, lrct, wr, isInit⟩
      else none
  | _ => none

/-- The declared fields of `AllianceParams`. -/
def paramsFieldNames : List String :=
  ["reward_delay_time", "take_rate_claim_interval", "last_take_rate_claim_time"]

/-- serde deserialization of `AllianceParams` from a JSON value; its
`last_take_rate_claim_time` is a raw string, untransformed. -/
def deserializeAllianceParams : Json → Option AllianceParams
  | .obj fs => do
      let keys := fs.map Prod.fst
      if keys.Nodup ∧ keys.all (fun k => paramsFieldNames.contains k) then
        let rdt ← deField fs "reward_delay_time" deNat
        let trci ← deField fs "take_rate_claim_interval" deNat
        let ltrct ← deField fs "last_take_rate_claim_time" deString
        pure ⟨rdt, trci, ltrct⟩
      else none
  | _ => none

/-! ## Sample wire values (used to instantiate the theorems below) -/

/-- The fields of a sample `AllianceAsset` wire object (`is_initialized` absent). -/
def sampleAssetFields : List (String × Json) :=
  [("denom", .str "ualliance"),
   ("reward_weight", .str "1.5"),
   ("consensus_weight", .str "0.5"),
   ("take_rate", .str "0.005"),
   ("total_tokens", .str "1000000"),
   ("total_validator_shares", .str "1000000.123"),
   ("reward_start_time", .str "2023-06-06T18:37:29.956787974Z"),
   ("reward_change_rate", .str "0.99"),
   ("reward_change_interval", .num 600),
   ("last_reward_change_time", .str "2023-06-07T00:00:00Z"),
   ("reward_weight_range", .obj [("min", .str "0"), ("max", .str "2")]),
  ]

/-- The `AllianceAsset` value `sampleAssetFields` deserializes to. -/
def sampleAsset : AllianceAsset :=
  ⟨"ualliance", ⟨1500000000000000000⟩, ⟨500000000000000000⟩, ⟨5000000000000000⟩,
   ⟨1000000000000000000000000⟩, ⟨1000000123000000000000000⟩,
   1686076649956787974, ⟨990000000000000000⟩, 600, "2023-06-07T00:00:00Z",
   ⟨⟨0⟩, ⟨2000000000000000000⟩⟩, none⟩

/-- The fields of a sample `AllianceParams` wire object. -/
def sampleParamsFields : List (String × Json) :=
  [("reward_delay_time", .num 3600),
   ("take_rate_claim_interval", .num 600),
   ("last_take_rate_claim_time", .str "not even RFC3339")]

/-! ## Calendar lemmas -/

set_option maxHeartbeats 1000000 in
theorem daysBeforeYear_succ (y : Nat) :
    daysBeforeYear (y+1) = daysBeforeYear y + daysInYear y := by
  simp only [daysBeforeYear, daysInYear, isLeap]
  split
  · rename_i h
    simp only [Bool.or_eq_true, Bool.and_eq_true, beq_iff_eq, bne_iff_ne, ne_eq] at h
    omega
  · rename_i h
    simp only [Bool.or_eq_true, Bool.and_eq_true, beq_iff_eq, bne_iff_ne, ne_eq] at h
    push_neg at h
    omega

theorem daysBeforeMonth_one (y : Nat) : daysBeforeMonth y 1 = 0 := by
  simp [daysBeforeMonth]

set_option maxHeartbeats 1000000 in
theorem daysBeforeMonth_succ (y m : Nat) (h1 : 1 ≤ m) (h2 : m ≤ 11) :
    daysBeforeMonth y (m+1) = daysBeforeMonth y m + daysInMonth y m := by
  interval_cases m <;> cases hL : isLeap y <;>
    simp +decide [daysBeforeMonth, daysInMonth, hL]

theorem daysBeforeMonth_last (y : Nat) :
    daysBeforeMonth y 12 + daysInMonth y 12 = daysInYear y := by
  cases hL : isLeap y <;> simp [daysBeforeMonth, daysInMonth, daysInYear, hL]

theorem yearScan_spec (fuel : Nat) : ∀ (y n : Nat),
    daysBeforeYear y + n < daysBeforeYear (y + fuel) →
    daysBeforeYear (yearScan fuel y n).1 + (yearScan fuel y n).2 = daysBeforeYear y + n ∧
    (yearScan fuel y n).2 < daysInYear (yearScan fuel y n).1 ∧
    y ≤ (yearScan fuel y n).1 ∧ (yearScan fuel y n).1 < y + fuel := by
  induction fuel with
  | zero =>
    intro y n h
    simp only [Nat.add_zero] at h
    omega
  | succ fuel ih =>
    intro y n h
    simp only [yearScan]
    split
    · rename_i hlt
      exact ⟨rfl, hlt, Nat.le_refl y, by omega⟩
    · rename_i hge
      push_neg at hge
      have hsucc := daysBeforeYear_succ y
      have hpre : daysBeforeYear (y+1) + (n - daysInYear y) <
          daysBeforeYear ((y+1) + fuel) := by
        have : (y+1) + fuel = y + (fuel+1) := by omega
        rw [this]
        omega
      have hrec := ih (y+1) (n - daysInYear y) hpre
      exact ⟨by omega, hrec.2.1, by omega, by omega⟩

theorem monthScan_spec (fuel : Nat) : ∀ (y m n : Nat),
    1 ≤ m → m + fuel = 12 → daysBeforeMonth y m + n < daysInYear y →
    daysBeforeMonth y (monthScan fuel y m n).1 + (monthScan fuel y m n).2
        = daysBeforeMonth y m + n ∧
    (monthScan fuel y m n).2 < daysInMonth y (monthScan fuel y m n).1 ∧
    1 ≤ (monthScan fuel y m n).1 ∧ (monthScan fuel y m n).1 ≤ 12 := by
  induction fuel with
  | zero =>
    intro y m n h1 h12 hlt
    have hm : m = 12 := by omega
    subst hm
    have hlast := daysBeforeMonth_last y
    have hms : monthScan 0 y 12 n = (12, n) := rfl
    refine ⟨?_, ?_, ?_, ?_⟩ <;> simp only [hms] <;> omega
  | succ fuel ih =>
    intro y m n h1 h12 hlt
    simp only [monthScan]
    split
    · rename_i hlt2
      exact ⟨rfl, hlt2, h1, by omega⟩
    · rename_i hge
      push_neg at hge
      have hsucc := daysBeforeMonth_succ y m h1 (by omega)
      have hrec := ih y (m+1) (n - daysInMonth y m) (by omega) (by omega) (by omega)
      exact ⟨by omega, hrec.2.1, by omega, hrec.2.2.2⟩

theorem civilFromDayN_spec (n : Nat) (hn : n < 3652425) :
    dayNumber (civilFromDayN n).1 (civilFromDayN n).2.1 (civilFromDayN n).2.2 = n ∧
    (civilFromDayN n).1 ≤ 9999 ∧
    1 ≤ (civilFromDayN n).2.1 ∧ (civilFromDayN n).2.1 ≤ 12 ∧
    1 ≤ (civilFromDayN n).2.2 ∧
    (civilFromDayN n).2.2 ≤ daysInMonth (civilFromDayN n).1 (civilFromDayN n).2.1 := by
  have h0 : daysBeforeYear 0 = 0 := rfl
  have h10000 : daysBeforeYear (0 + 10000) = 3652425 := by norm_num [daysBeforeYear]
  have hy := yearScan_spec 10000 0 n (by omega)
  have hbm1 := daysBeforeMonth_one (yearScan 10000 0 n).1
  have hm := monthScan_spec 11 (yearScan 10000 0 n).1 1 (yearScan 10000 0 n).2
    (by norm_num) (by norm_num) (by omega)
  simp only [civilFromDayN, dayNumber]
  refine ⟨by omega, by omega, hm.2.2.1, hm.2.2.2, by omega, by omega⟩

/-! ## Text-layer lemmas: parsing a formatted timestamp recovers its components -/

theorem readDigit_dchar : ∀ d, d < 10 → readDigit (dchar d) = some d := by decide

theorem readDigit_digitChar (n : Nat) : readDigit (digitChar n) = some (n % 10) :=
  readDigit_dchar (n % 10) (Nat.mod_lt _ (by norm_num))

theorem read2_pad2 (x : Nat) (hx : x < 100) (rest : List Char) :
    read2 (pad2 x ++ rest) = some (x, rest) := by
  simp [pad2, read2, readDigit_digitChar]
  omega

theorem read4_pad4 (x : Nat) (hx : x < 10000) (rest : List Char) :
    read4 (pad4 x ++ rest) = some (x, rest) := by
  simp [pad4, read4, readDigit_digitChar]
  omega

theorem parseDate_fmt (y mo d : Nat) (hy : y < 10000) (hmo : mo < 100) (hd : d < 100)
    (rest : List Char) :
    parseDate (pad4 y ++ '-' :: (pad2 mo ++ '-' :: (pad2 d ++ rest)))
      = some (y, mo, d, rest) := by
  simp [parseDate, read4_pad4 y hy, expectChar, read2_pad2 mo hmo, read2_pad2 d hd]

theorem parseTime_fmt (h mi s : Nat) (hh : h < 100) (hmi : mi < 100) (hs : s < 100)
    (rest : List Char) :
    parseTime (pad2 h ++ ':' :: (pad2 mi ++ ':' :: (pad2 s ++ rest)))
      = some (h, mi, s, rest) := by
  simp [parseTime, read2_pad2 h hh, expectChar, read2_pad2 mi hmi, read2_pad2 s hs]

theorem readFracLoop_pad3 (q : Nat) (hq : q < 1000) (c : Char) (rest : List Char)
    (hc : readDigit c = none) :
    readFracLoop (pad3 q ++ c :: rest) 0 0 = (q, 3, c :: rest) := by
  simp [pad3, readFracLoop, readDigit_digitChar, hc]
  omega

theorem readFracLoop_pad6 (q : Nat) (hq : q < 1000000) (c : Char) (rest : List Char)
    (hc : readDigit c = none) :
    readFracLoop (pad6 q ++ c :: rest) 0 0 = (q, 6, c :: rest) := by
  simp [pad6, readFracLoop, readDigit_digitChar, hc]
  omega

theorem readFracLoop_pad9 (q : Nat) (hq : q < 1000000000) (c : Char) (rest : List Char)
    (hc : readDigit c = none) :
    readFracLoop (pad9 q ++ c :: rest) 0 0 = (q, 9, c :: rest) := by
  simp [pad9, readFracLoop, readDigit_digitChar, hc]
  omega

theorem readFrac_fracChars (ns : Nat) (hns : ns < 1000000000) :
    readFrac (fracChars ns ++ ['Z']) = some (ns, ['Z']) := by
  have hZ : readDigit 'Z' = none := by decide
  simp only [fracChars]
  split
  · rename_i h0
    subst h0
    simp [readFrac]
  · split
    · rename_i h0 h6
      have hq : ns / 1000000 < 1000 := by omega
      simp [readFrac, readFracLoop_pad3 (ns / 1000000) hq 'Z' [] hZ, fracScale]
      omega
    · split
      · rename_i h0 h6 h3
        have hq : ns / 1000 < 1000000 := by omega
        simp [readFrac, readFracLoop_pad6 (ns / 1000) hq 'Z' [] hZ, fracScale]
        omega
      · rename_i h0 h6 h3
        simp [readFrac, readFracLoop_pad9 ns hns 'Z' [] hZ, fracScale]

theorem readOffset_Z (rest : List Char) : readOffset ('Z' :: rest) = some (0, rest) := by
  simp [readOffset]

set_option maxHeartbeats 1000000 in
theorem parseTSAux_fmt (y mo d h mi s ns : Nat)
    (hy : y ≤ 9999) (hmo1 : 1 ≤ mo) (hmo : mo ≤ 12) (hd1 : 1 ≤ d)
    (hd : d ≤ daysInMonth y mo) (hh : h ≤ 23) (hmi : mi ≤ 59) (hs : s ≤ 59)
    (hns : ns < 1000000000) :
    parseTSAux (fmtChars y mo d h mi s ns) =
      some ((((dayNumber y mo d : Int) - 719528) * 86400 +
        ((h*3600 + mi*60 + s : Nat) : Int)) * 1000000000 + (ns : Int)) := by
  have hdm : d < 100 := by
    have : daysInMonth y mo ≤ 31 := by
      simp only [daysInMonth]
      split
      · split <;> omega
      · split <;> omega
    omega
  simp [fmtChars, parseTSAux,
    parseDate_fmt y mo d (by omega) (by omega) hdm,
    readSep, parseTime_fmt h mi s (by omega) (by omega) (by omega),
    readFrac_fracChars ns hns, readOffset_Z,
    hmo1, hmo, hd1, hd, hh, hmi, (by omega : s ≤ 60)]

set_option maxHeartbeats 1000000 in
/-- Parsing the RFC3339 rendering of any `i64` nanosecond timestamp gives back
exactly that timestamp. -/
theorem parseTS_encodeNanos (n : Int)
    (hlo : -9223372036854775808 ≤ n) (hhi : n < 9223372036854775808) :
    parseTS (encodeNanos n) = some n := by
  have hdayNlt : (n / 1000000000 / 86400 + 719528).toNat < 3652425 := by omega
  have hsod : (n / 1000000000 % 86400).toNat < 86400 := by omega
  have hns : (n % 1000000000).toNat < 1000000000 := by omega
  have hc := civilFromDayN_spec _ hdayNlt
  have hfmt := parseTSAux_fmt
      (civilFromDayN (n / 1000000000 / 86400 + 719528).toNat).1
      (civilFromDayN (n / 1000000000 / 86400 + 719528).toNat).2.1
      (civilFromDayN (n / 1000000000 / 86400 + 719528).toNat).2.2
      ((n / 1000000000 % 86400).toNat / 3600)
      ((n / 1000000000 % 86400).toNat % 3600 / 60)
      ((n / 1000000000 % 86400).toNat % 60)
      (n % 1000000000).toNat
      hc.2.1 hc.2.2.1 hc.2.2.2.1 hc.2.2.2.2.1 hc.2.2.2.2.2
      (by omega) (by omega) (by omega) hns
  have step : parseTS (encodeNanos n) = parseTSAux (fmtChars
      (civilFromDayN (n / 1000000000 / 86400 + 719528).toNat).1
      (civilFromDayN (n / 1000000000 / 86400 + 719528).toNat).2.1
      (civilFromDayN (n / 1000000000 / 86400 + 719528).toNat).2.2
      ((n / 1000000000 % 86400).toNat / 3600)
      ((n / 1000000000 % 86400).toNat % 3600 / 60)
      ((n / 1000000000 % 86400).toNat % 60)
      (n % 1000000000).toNat) := rfl
  rw [step, hfmt]
  have hday := hc.1
  congr 1
  omega

/-! ## Codec claims -/

/-- C1: for every representable nanosecond timestamp `t` (a `u64` value, as
produced by `Timestamp::nanos`), decoding the RFC3339 string produced by
encoding `t` — `deserialize_time_stamp` applied to the output of
`serialize_time_stamp` — returns exactly `t`. -/
theorem c1_decode_encode_roundtrip (t : Nat) (ht : t < 18446744073709551616) :
    deserialize_time_stamp (serialize_time_stamp t) = .ok t := by
  have hrange : -9223372036854775808 ≤ i64OfU64 t ∧
      i64OfU64 t < 9223372036854775808 := by
    simp only [i64OfU64]
    split <;> omega
  have hp := parseTS_encodeNanos (i64OfU64 t) hrange.1 hrange.2
  simp only [serialize_time_stamp, deserialize_time_stamp, hp]
  have hcast : u64OfI64 (wrapI64 (i64OfU64 t)) = t := by
    simp only [u64OfI64, wrapI64, i64OfU64]
    split <;> omega
  rw [hcast]

/-- Witness for C1 at the concrete timestamp `42`. -/
theorem c1_decode_encode_roundtrip_witness :
    42 < 18446744073709551616 ∧
    deserialize_time_stamp (serialize_time_stamp 42) = .ok 42 :=
  ⟨by norm_num, c1_decode_encode_roundtrip 42 (by norm_num)⟩

set_option maxRecDepth 40000 in
/-- C5 fails as stated: encoding nanosecond timestamp `1686075449956787974`
produces `"2023-06-06T18:17:29.956787974Z"` (18:17:29 UTC), not the
`"2023-06-06T18:37:29.956787974Z"` the specification expects. -/
theorem c5_counterexample :
    serialize_time_stamp 1686075449956787974 = "2023-06-06T18:17:29.956787974Z" ∧
    serialize_time_stamp 1686075449956787974 ≠ "2023-06-06T18:37:29.956787974Z" := by
  have h1 : serialize_time_stamp 1686075449956787974
      = "2023-06-06T18:17:29.956787974Z" := rfl
  refine ⟨h1, ?_⟩
  rw [h1]
  decide

set_option maxRecDepth 40000 in
/-- C5, amended: the nanosecond timestamp whose encoding is
`"2023-06-06T18:37:29.956787974Z"` is `1686076649956787974`, and decoding
that string returns it. -/
theorem c5_amended_scenario :
    serialize_time_stamp 1686076649956787974 = "2023-06-06T18:37:29.956787974Z" ∧
    deserialize_time_stamp "2023-06-06T18:37:29.956787974Z" = .ok 1686076649956787974 := by
  exact ⟨rfl, rfl⟩

/-- C2, amended: for every valid RFC3339 string `s` whose instant `n` (in
nanoseconds since the epoch) is representable in `i64`, encoding the
timestamp obtained by decoding `s` yields a string denoting the same
instant: it parses back to exactly `n`, i.e. `parseTS (encode (decode s)) =
parseTS s` (the re-rendering is always in UTC with `Z` offset by
construction of `encodeNanos`). -/
theorem c2_encode_decode_roundtrip (s : String) (n : Int)
    (hp : parseTS s = some n)
    (hlo : -9223372036854775808 ≤ n) (hhi : n < 9223372036854775808) :
    deserialize_time_stamp s = .ok (u64OfI64 n) ∧
    parseTS (serialize_time_stamp (u64OfI64 n)) = parseTS s := by
  have hwrap : wrapI64 n = n := by
    simp only [wrapI64]
    omega
  have hcast : i64OfU64 (u64OfI64 n) = n := by
    simp only [i64OfU64, u64OfI64]
    split <;> omega
  refine ⟨?_, ?_⟩
  · simp only [deserialize_time_stamp, hp, hwrap]
  · rw [serialize_time_stamp, hcast, parseTS_encodeNanos n hlo hhi, hp]

/-- Witness for C2 (amended) at `"1970-01-01T00:00:01Z"`. -/
theorem c2_encode_decode_roundtrip_witness :
    parseTS "1970-01-01T00:00:01Z" = some 1000000000 ∧
    (deserialize_time_stamp "1970-01-01T00:00:01Z" = .ok (u64OfI64 1000000000) ∧
     parseTS (serialize_time_stamp (u64OfI64 1000000000)) = parseTS "1970-01-01T00:00:01Z") :=
  ⟨by decide, c2_encode_decode_roundtrip "1970-01-01T00:00:01Z" 1000000000
    (by decide) (by decide) (by decide)⟩

set_option maxRecDepth 40000 in
/-- C2 fails as stated for valid RFC3339 strings outside the `i64` nanosecond
range: `"0001-01-01T00:00:00.000000001Z"` decodes (wrapping modulo `2^64`)
to `11651379494838206465`, whose re-encoding denotes a different instant. -/
theorem c2_counterexample :
    parseTS "0001-01-01T00:00:00.000000001Z" = some (-62135596799999999999) ∧
    deserialize_time_stamp "0001-01-01T00:00:00.000000001Z" = .ok 11651379494838206465 ∧
    parseTS (serialize_time_stamp 11651379494838206465) ≠
      parseTS "0001-01-01T00:00:00.000000001Z" := by
  have hp : parseTS "0001-01-01T00:00:00.000000001Z"
      = some (-62135596799999999999) := by decide
  refine ⟨hp, ?_, by decide⟩
  simp only [deserialize_time_stamp, hp]
  have hv : u64OfI64 (wrapI64 (-62135596799999999999)) = 11651379494838206465 := by
    decide
  rw [hv]

/-- C9: decoding any valid RFC3339 instant strictly before the Unix epoch
does not fail: the negative `i64` nanosecond count is cast to `u64` modulo
`2^64`, so the decoder silently returns the wrapped, very large timestamp
`n + 2^64 ≥ 2^63`. -/
theorem c9_pre_epoch_wraps (s : String) (n : Int)
    (hp : parseTS s = some n)
    (hlo : -9223372036854775808 ≤ n) (hneg : n < 0) :
    deserialize_time_stamp s = .ok (n + 18446744073709551616).toNat ∧
    9223372036854775808 ≤ (n + 18446744073709551616).toNat := by
  refine ⟨?_, by omega⟩
  simp only [deserialize_time_stamp, hp]
  have : u64OfI64 (wrapI64 n) = (n + 18446744073709551616).toNat := by
    simp only [u64OfI64, wrapI64]
    omega
  rw [this]

/-- Witness for C9 at one nanosecond before the epoch. -/
theorem c9_pre_epoch_wraps_witness :
    parseTS "1969-12-31T23:59:59.999999999Z" = some (-1) ∧
    deserialize_time_stamp "1969-12-31T23:59:59.999999999Z"
      = .ok 18446744073709551615 :=
  ⟨by decide,
   ((c9_pre_epoch_wraps "1969-12-31T23:59:59.999999999Z" (-1)
      (by decide) (by decide) (by decide)).1).trans
     (congrArg Except.ok (by decide))⟩

/-! ## Extraction lemmas for the struct deserializers -/

theorem deString_some (j : Json) (s : String) (h : deString j = some s) :
    j = .str s := by
  cases j <;> simp_all [deString]

theorem deTimeStamp_some (j : Json) (rst : Nat) (h : deTimeStamp j = some rst) :
    ∃ s, j = .str s ∧ deserialize_time_stamp s = .ok rst := by
  cases j with
  | str s =>
    refine ⟨s, rfl, ?_⟩
    simp only [deTimeStamp, deString, Option.bind_eq_bind, Option.some_bind] at h
    cases hd : deserialize_time_stamp s with
    | ok v =>
      rw [hd] at h
      simp only [Except.toOption, Option.some.injEq] at h
      rw [h]
    | error e =>
      rw [hd] at h
      simp [Except.toOption] at h
  | num n => simp [deTimeStamp, deString] at h
  | bool b => simp [deTimeStamp, deString] at h
  | null => simp [deTimeStamp, deString] at h
  | arr xs => simp [deTimeStamp, deString] at h
  | obj fs => simp [deTimeStamp, deString] at h

theorem deAssetRest_fields (fs : List (String × Json))
    (r : String × Nat × Nat × String × WeightRange × Option Bool)
    (h : deAssetRest fs = some r) :
    deField fs "reward_start_time" deTimeStamp = some r.2.1 ∧
    deField fs "last_reward_change_time" deString = some r.2.2.2.1 := by
  simp only [deAssetRest, Option.pure_def, Option.bind_eq_bind, Option.bind_eq_some,
    Option.some.injEq] at h
  obtain ⟨denom, h1, rst, h2, rci, h3, lrct, h4, wr, h5, ii, h6, heq⟩ := h
  subst heq
  exact ⟨h2, h4⟩

theorem deserializeAsset_time_fields (fs : List (String × Json)) (a : AllianceAsset)
    (h : deserializeAllianceAsset (.obj fs) = some a) :
    deField fs "reward_start_time" deTimeStamp = some a.reward_start_time ∧
    deField fs "last_reward_change_time" deString = some a.last_reward_change_time := by
  simp only [deserializeAllianceAsset] at h
  split at h
  · simp only [Option.pure_def, Option.bind_eq_bind, Option.bind_eq_some,
      Option.some.injEq] at h
    obtain ⟨dec, hdec, rest, hrest, heq⟩ := h
    have hf := deAssetRest_fields fs rest hrest
    subst heq
    exact ⟨hf.1, hf.2⟩
  · simp at h

theorem deserializeParams_time_field (fs : List (String × Json)) (p : AllianceParams)
    (h : deserializeAllianceParams (.obj fs) = some p) :
    deField fs "last_take_rate_claim_time" deString
      = some p.last_take_rate_claim_time := by
  simp only [deserializeAllianceParams] at h
  split at h
  · simp only [Option.pure_def, Option.bind_eq_bind, Option.bind_eq_some,
      Option.some.injEq] at h
    obtain ⟨rdt, h1, trci, h2, ltrct, h3, heq⟩ := h
    subst heq
    exact h3
  · simp at h

theorem deField_str (fs : List (String × Json)) (k : String) (s : String)
    (h : deField fs k deString = some s) :
    jLookup fs k = some (.str s) := by
  simp only [deField, Option.bind_eq_bind, Option.bind_eq_some] at h
  obtain ⟨j, hj, hs⟩ := h
  rw [hj, deString_some j s hs]

theorem deField_time (fs : List (String × Json)) (k : String) (rst : Nat)
    (h : deField fs k deTimeStamp = some rst) :
    ∃ s, jLookup fs k = some (.str s) ∧ deserialize_time_stamp s = .ok rst := by
  simp only [deField, Option.bind_eq_bind, Option.bind_eq_some] at h
  obtain ⟨j, hj, hs⟩ := h
  obtain ⟨s, rfl, hok⟩ := deTimeStamp_some j rst hs
  exact ⟨s, hj, hok⟩

/-! ## Remaining claims -/

/-- C6: the timestamp decode path fails — with the serde `FormatError` — if
and only if the string is not a valid RFC3339 timestamp (validity being what
the RFC3339 parser `parseTS` accepts); on a valid string it always returns
the (wrapped) nanosecond count; and the error is propagated, not recovered:
an `AllianceAsset` deserialization can only succeed when
`deserialize_time_stamp` succeeded on the raw `reward_start_time` string. -/
theorem c6_format_error_iff :
    (∀ s, deserialize_time_stamp s = .error .FormatError ↔ parseTS s = none) ∧
    (∀ s n, parseTS s = some n →
      deserialize_time_stamp s = .ok (u64OfI64 (wrapI64 n))) ∧
    (∀ fs a, deserializeAllianceAsset (.obj fs) = some a →
      ∃ s, jLookup fs "reward_start_time" = some (.str s) ∧
        deserialize_time_stamp s = .ok a.reward_start_time) := by
  refine ⟨fun s => ?_, fun s n hp => ?_, fun fs a h => ?_⟩
  · cases hp : parseTS s <;> simp [deserialize_time_stamp, hp]
  · simp [deserialize_time_stamp, hp]
  · exact deField_time fs "reward_start_time" a.reward_start_time
      (deserializeAsset_time_fields fs a h).1

/-- Witness for C6: a non-RFC3339 string is rejected with `FormatError`. -/
theorem c6_format_error_iff_witness :
    deserialize_time_stamp "not even RFC3339" = .error .FormatError :=
  (c6_format_error_iff.1 "not even RFC3339").mpr (by decide)

/-- C8: only `reward_start_time` goes through the timestamp codec — asset
deserialization succeeds only with `deserialize_time_stamp` applied to that
field's wire string — while `last_reward_change_time` (on `AllianceAsset`)
and `last_take_rate_claim_time` (on `AllianceParams`) are taken verbatim
from the wire as raw strings, with no parsing or transformation. -/
theorem c8_raw_time_strings :
    (∀ fs a, deserializeAllianceAsset (.obj fs) = some a →
      (∃ s, jLookup fs "reward_start_time" = some (.str s) ∧
        deserialize_time_stamp s = .ok a.reward_start_time) ∧
      jLookup fs "last_reward_change_time"
        = some (.str a.last_reward_change_time)) ∧
    (∀ fs p, deserializeAllianceParams (.obj fs) = some p →
      jLookup fs "last_take_rate_claim_time"
        = some (.str p.last_take_rate_claim_time)) := by
  refine ⟨fun fs a h => ?_, fun fs p h => ?_⟩
  · have hf := deserializeAsset_time_fields fs a h
    exact ⟨deField_time fs "reward_start_time" a.reward_start_time hf.1,
      deField_str fs "last_reward_change_time" a.last_reward_change_time hf.2⟩
  · exact deField_str fs "last_take_rate_claim_time" p.last_take_rate_claim_time
      (deserializeParams_time_field fs p h)

/-- Witness for C8 on the sample asset and params objects. -/
theorem c8_raw_time_strings_witness :
    ((∃ s, jLookup sampleAssetFields "reward_start_time" = some (.str s) ∧
        deserialize_time_stamp s = .ok sampleAsset.reward_start_time) ∧
      jLookup sampleAssetFields "last_reward_change_time"
        = some (.str sampleAsset.last_reward_change_time)) ∧
    jLookup sampleParamsFields "last_take_rate_claim_time"
      = some (.str "not even RFC3339") :=
  ⟨c8_raw_time_strings.1 sampleAssetFields sampleAsset rfl,
   c8_raw_time_strings.2 sampleParamsFields ⟨3600, 600, "not even RFC3339"⟩ rfl⟩

/-- C4: the four `CreateAllianceMsg` builder methods — available to every `M`
constructible from `AllianceMsg` — produce `M` from exactly the variant named
by the method, with the given arguments carried through unmodified into its
fields. -/
theorem c4_builders (M : Type) (F : FromAllianceMsg M)
    (delegator validator vsrc vdst denom : String) (amount : Coin) :
    alliance_delegate F delegator validator amount
      = F.fromMsg (.Delegate delegator validator amount) ∧
    alliance_undelegate F delegator validator amount
      = F.fromMsg (.Undelegate delegator validator amount) ∧
    alliance_redelegate F delegator vsrc vdst amount
      = F.fromMsg (.Redelegate delegator vsrc vdst amount) ∧
    alliance_claim_deligation_rewards F delegator validator denom
      = F.fromMsg (.ClaimDelegationRewards delegator validator denom) :=
  ⟨rfl, rfl, rfl, rfl⟩

/-- C7: serializing `ClaimDelegationRewards { delegator: "a1", validator:
"v1", denom: "uusd" }` produces the externally tagged payload with exactly
those three field values under the `claim_delegation_rewards` tag. -/
theorem c7_claim_rewards_serialization :
    serializeAllianceMsg (.ClaimDelegationRewards "a1" "v1" "uusd") =
      Json.obj [("claim_delegation_rewards", Json.obj
        [("delegator_address", Json.str "a1"),
         ("validator_address", Json.str "v1"),
         ("denom", Json.str "uusd")])] := rfl

/-- C10: every `AllianceMsg` and `AllianceQuery` value serializes under the
`snake_case` form of its variant name as the wire tag, with field keys that
are already `snake_case` fixed points of the rename rule. -/
theorem c10_snake_case_wire_format :
    (∀ m : AllianceMsg,
      wireTag (serializeAllianceMsg m) = some (snakeCase (msgVariantName m))) ∧
    (∀ m : AllianceMsg,
      ((wirePayloadKeys (serializeAllianceMsg m)).all
        (fun k => snakeCase k == k)) = true) ∧
    (∀ qq : AllianceQuery,
      wireTag (serializeAllianceQuery qq) = some (snakeCase (queryVariantName qq))) ∧
    (∀ qq : AllianceQuery,
      ((wirePayloadKeys (serializeAllianceQuery qq)).all
        (fun k => snakeCase k == k)) = true) := by
  refine ⟨fun m => ?_, fun m => ?_, fun q2 => ?_, fun q2 => ?_⟩
  · cases m <;> rfl
  · cases m <;> rfl
  · cases q2 <;> rfl
  · cases q2 <;> rfl

/-! ## C3: the query dispatcher -/

theorem decodeAlliance_ok_iff (x : Except QueryError RespVal)
    (r : AllianceAllianceResponse) :
    decodeAlliance x = .ok r ↔ x = .ok (.alliance r) := by
  cases x with
  | error e => simp [decodeAlliance]
  | ok v => cases v <;> simp [decodeAlliance]

theorem decodeAlliances_ok_iff (x : Except QueryError RespVal)
    (r : AllianceAlliancesResponse) :
    decodeAlliances x = .ok r ↔ x = .ok (.alliances r) := by
  cases x with
  | error e => simp [decodeAlliances]
  | ok v => cases v <;> simp [decodeAlliances]

theorem decodeDelegations_ok_iff (x : Except QueryError RespVal)
    (r : AllianceAlliancesDelegationsResponse) :
    decodeDelegations x = .ok r ↔ x = .ok (.alliancesDelegations r) := by
  cases x with
  | error e => simp [decodeDelegations]
  | ok v => cases v <;> simp [decodeDelegations]

theorem decodeSingleDelegation_ok_iff (x : Except QueryError RespVal)
    (r : SingleDelegationResponse) :
    decodeSingleDelegation x = .ok r ↔ x = .ok (.singleDelegation r) := by
  cases x with
  | error e => simp [decodeSingleDelegation]
  | ok v => cases v <;> simp [decodeSingleDelegation]

theorem decodeRewards_ok_iff (x : Except QueryError RespVal) (r : RewardsResponse) :
    decodeRewards x = .ok r ↔ x = .ok (.rewards r) := by
  cases x with
  | error e => simp [decodeRewards]
  | ok v => cases v <;> simp [decodeRewards]

theorem decodeParams_ok_iff (x : Except QueryError RespVal)
    (r : AllianceParamsResponse) :
    decodeParams x = .ok r ↔ x = .ok (.params r) := by
  cases x with
  | error e => simp [decodeParams]
  | ok v => cases v <;> simp [decodeParams]

theorem decodeValidator_ok_iff (x : Except QueryError RespVal)
    (r : ValidatorResponse) :
    decodeValidator x = .ok r ↔ x = .ok (.validator r) := by
  cases x with
  | error e => simp [decodeValidator]
  | ok v => cases v <;> simp [decodeValidator]

theorem decodeValidators_ok_iff (x : Except QueryError RespVal)
    (r : AllValidatorsResponse) :
    decodeValidators x = .ok r ↔ x = .ok (.validators r) := by
  cases x with
  | error e => simp [decodeValidators]
  | ok v => cases v <;> simp [decodeValidators]

/-- C3: each of the nine `AllianceQuerier` methods sends through the custom
envelope exactly the `AllianceQuery` variant built from its arguments
unmodified, and succeeds with `r` — of the single response type statically
bound to that variant — precisely when the host answered that query with
that payload (anything else is a `QueryError`, by the methods' result type
`Except QueryError _`); and the nine variant/method pairs are exhaustive:
every `AllianceQuery` is one of the nine variants. -/
theorem c3_querier_dispatch (T : Type) (q : QuerierWrapper T) :
    (∀ denom r, query_alliance_alliance q denom = .ok r ↔
      q.rawQuery (q.intoCustom (.Alliance denom)) = .ok (.alliance r)) ∧
    (∀ p r, query_alliance_alliances q p = .ok r ↔
      q.rawQuery (q.intoCustom (.Alliances p)) = .ok (.alliances r)) ∧
    (∀ p r, query_alliance_alliances_delegations q p = .ok r ↔
      q.rawQuery (q.intoCustom (.AlliancesDelegations p))
        = .ok (.alliancesDelegations r)) ∧
    (∀ d v p r, query_alliance_alliances_delegation_by_validator q d v p = .ok r ↔
      q.rawQuery (q.intoCustom (.AlliancesDelegationByValidator d v p))
        = .ok (.alliancesDelegations r)) ∧
    (∀ d v dn r, query_alliance_delegation q d v dn = .ok r ↔
      q.rawQuery (q.intoCustom (.Delegation d v dn)) = .ok (.singleDelegation r)) ∧
    (∀ d v dn r, query_alliance_delegation_rewards q d v dn = .ok r ↔
      q.rawQuery (q.intoCustom (.DelegationRewards d v dn)) = .ok (.rewards r)) ∧
    (∀ r, query_alliance_params q = .ok r ↔
      q.rawQuery (q.intoCustom .Params) = .ok (.params r)) ∧
    (∀ v r, query_alliance_validator q v = .ok r ↔
      q.rawQuery (q.intoCustom (.Validator v)) = .ok (.validator r)) ∧
    (∀ p r, query_alliance_validators q p = .ok r ↔
      q.rawQuery (q.intoCustom (.Validators p)) = .ok (.validators r)) ∧
    (∀ qq : AllianceQuery,
      (∃ dn, qq = .Alliance dn) ∨ (∃ p, qq = .Alliances p) ∨
      (∃ p, qq = .AlliancesDelegations p) ∨
      (∃ d v p, qq = .AlliancesDelegationByValidator d v p) ∨
      (∃ d v dn, qq = .Delegation d v dn) ∨
      (∃ d v dn, qq = .DelegationRewards d v dn) ∨
      qq = .Params ∨ (∃ v, qq = .Validator v) ∨ (∃ p, qq = .Validators p)) := by
  refine ⟨fun denom r => decodeAlliance_ok_iff _ _,
    fun p r => decodeAlliances_ok_iff _ _,
    fun p r => decodeDelegations_ok_iff _ _,
    fun d v p r => decodeDelegations_ok_iff _ _,
    fun d v dn r => decodeSingleDelegation_ok_iff _ _,
    fun d v dn r => decodeRewards_ok_iff _ _,
    fun r => decodeParams_ok_iff _ _,
    fun v r => decodeValidator_ok_iff _ _,
    fun p r => decodeValidators_ok_iff _ _,
    fun qq => ?_⟩
  cases qq with
  | Alliance dn => exact Or.inl ⟨dn, rfl⟩
  | Alliances p => exact Or.inr (Or.inl ⟨p, rfl⟩)
  | AlliancesDelegations p => exact Or.inr (Or.inr (Or.inl ⟨p, rfl⟩))
  | AlliancesDelegationByValidator d v p =>
      exact Or.inr (Or.inr (Or.inr (Or.inl ⟨d, v, p, rfl⟩)))
  | Delegation d v dn =>
      exact Or.inr (Or.inr (Or.inr (Or.inr (Or.inl ⟨d, v, dn, rfl⟩))))
  | DelegationRewards d v dn =>
      exact Or.inr (Or.inr (Or.inr (Or.inr (Or.inr (Or.inl ⟨d, v, dn, rfl⟩)))))
  | Params =>
      exact Or.inr (Or.inr (Or.inr (Or.inr (Or.inr (Or.inr (Or.inl rfl))))))
  | Validator v =>
      exact Or.inr (Or.inr (Or.inr (Or.inr (Or.inr (Or.inr (Or.inr (Or.inl ⟨v, rfl⟩)))))))
  | Validators p =>
      exact Or.inr (Or.inr (Or.inr (Or.inr (Or.inr (Or.inr (Or.inr (Or.inr ⟨p, rfl⟩)))))))

end Alliance
